import Mathlib

/-!
Verification development for the `sap.rfc` user-management module
(`src/sap/rfc/user.py` and `src/sap/rfc/bapi.py`).

Python dictionaries are embedded as insertion-ordered association lists
without duplicate keys (`PyDict`); dictionary assignment `d[k] = v`
replaces the value at the first occurrence of `k` or appends a fresh
entry at the end, matching CPython dict semantics for the dictionaries
this module builds.  The current clock (`today_sap_date()`) is passed
to the builders as an explicit `today : String` argument.  Python
exceptions are embedded with the `PyErr` type; a function that can
raise returns its result together with an `Except PyErr` outcome.
-/

set_option autoImplicit false

/-- Insertion-ordered association list standing for a Python dict. -/
abbrev PyDict (α : Type) := List (String × α)

/-- Membership test `key in dict`. -/
def pHasKey {α : Type} : PyDict α → String → Bool
  | [], _ => false
  | p :: t, k => p.1 == k || pHasKey t k

/-- Dictionary assignment `d[k] = v`: replace the value at `k` if the key
is present, otherwise append the new entry at the end. -/
def pSet {α : Type} : PyDict α → String → α → PyDict α
  | [], k, v => [(k, v)]
  | p :: t, k, v => if p.1 == k then (k, v) :: t else p :: pSet t k v

/-- Dictionary lookup `d[k]` returning `none` for a missing key. -/
def pGet? {α : Type} : PyDict α → String → Option α
  | [], _ => none
  | p :: t, k => if p.1 == k then some p.2 else pGet? t k

/-- Embeds `add_to_dict_if_not_none` from `src/sap/rfc/user.py`
(lines 15-24): a `None` value leaves the dict unchanged and reports
`False`, otherwise the value is stored and the function reports `True`. -/
def add_to_dict_if_not_none {α : Type} (target_dict : PyDict α)
    (target_key : String) (value : Option α) : PyDict α × Bool :=
  match value with
  | none => (target_dict, false)
  | some v => (pSet target_dict target_key v, true)

/-- Embeds `add_to_dict_if_not_present` from `src/sap/rfc/user.py`
(lines 27-36): a key that is already present is left untouched and the
function reports `False`, otherwise the value is inserted and the
function reports `True`. -/
def add_to_dict_if_not_present {α : Type} (target_dict : PyDict α)
    (target_key : String) (value : α) : PyDict α × Bool :=
  if pHasKey target_dict target_key then (target_dict, false)
  else (pSet target_dict target_key value, true)

/-- String-valued Python dict (address block, logon data, table rows). -/
abbrev StrDict := PyDict String

/-- Embedded Python exception kinds raised by this module. -/
inductive PyErr where
  | typeError
  | valueError
  | nameError (missing : String)
deriving DecidableEq, Repr

/-- One row of a BAPI return table (`TYPE` severity, `MESSAGE` text). -/
structure BapiRet where
  TYPE : String
  MESSAGE : String
deriving DecidableEq, Repr

/-- Embeds the message computation of `BAPIError.__init__`
(`src/sap/rfc/bapi.py` lines 13-15): every row of the table, in order,
contributes its `TYPE` and `MESSAGE` joined by a space, and the rows are
joined by newlines. -/
def bapiErrorMessage (bapirettab : List BapiRet) : String :=
  String.intercalate "\n"
    (bapirettab.map (fun bapiret =>
      String.intercalate " " [bapiret.TYPE, bapiret.MESSAGE]))

/-- Outcome of `BAPIError.raise_for_error`.  The raising branch executes
`raise BAPIError(bapiret, response)`, which applies the class constructor
to two positional arguments although `BAPIError.__init__` declares three
required parameters `(message, bapirettab, response)`; Python therefore
raises `TypeError` from the constructor call, never the `BAPIError`. -/
inductive RaiseOutcome where
  | ok
  | raisedTypeError
deriving DecidableEq, Repr

/-- Embeds `BAPIError.raise_for_error` (`src/sap/rfc/bapi.py` lines
20-28) for a list argument: the list is kept as is (a lone row would be
wrapped into a one-element list), and when it is non-empty and some row
has `TYPE == "E"` the constructor call `BAPIError(bapiret, response)` is
executed, which fails with `TypeError` (two arguments against three
required constructor parameters); otherwise the function returns
normally.  The `response` argument is irrelevant to the outcome and is
omitted. -/
def raise_for_error (bapiret : List BapiRet) : RaiseOutcome :=
  if (!bapiret.isEmpty) && bapiret.any (fun r => r.TYPE == "E") then
    RaiseOutcome.raisedTypeError
  else
    RaiseOutcome.ok

/-- Builder state of `UserBuilder` (`src/sap/rfc/user.py` lines 47-56):
five fields, all initialised to `None`. -/
structure UserBuilder where
  _username : Option String
  _address : Option StrDict
  _logondata : Option StrDict
  _password : Option StrDict
  _alias : Option StrDict
deriving DecidableEq, Repr

/-- A freshly constructed `UserBuilder()`. -/
def UserBuilder.new : UserBuilder :=
  { _username := none, _address := none, _logondata := none,
    _password := none, _alias := none }

/-- Embeds `UserBuilder.set_username` (lines 85-89). -/
def UserBuilder.set_username (b : UserBuilder) (username : String) : UserBuilder :=
  { b with _username := some username }

/-- Embeds `UserBuilder.set_first_name` (lines 91-95); the
`_address_data` property replaces a `None` address block with an empty
dict before the assignment. -/
def UserBuilder.set_first_name (b : UserBuilder) (first_name : String) : UserBuilder :=
  { b with _address := some (pSet (b._address.getD []) "FIRSTNAME" first_name) }

/-- Embeds `UserBuilder.set_last_name` (lines 97-101). -/
def UserBuilder.set_last_name (b : UserBuilder) (last_name : String) : UserBuilder :=
  { b with _address := some (pSet (b._address.getD []) "LASTNAME" last_name) }

/-- Embeds `UserBuilder.set_email_address` (lines 103-107).  Unlike the
sibling setters this method subscripts `self._address` directly instead
of going through the `_address_data` property, so on a builder whose
address block is still `None` the assignment raises `TypeError`
(`NoneType` does not support item assignment) and the builder is left
unchanged. -/
def UserBuilder.set_email_address (b : UserBuilder) (email_address : String) :
    UserBuilder × Except PyErr Unit :=
  match b._address with
  | none => (b, Except.error PyErr.typeError)
  | some d => ({ b with _address := some (pSet d "E_MAIL" email_address) }, Except.ok ())

/-- Embeds `UserBuilder.set_password` (lines 109-113). -/
def UserBuilder.set_password (b : UserBuilder) (password : String) : UserBuilder :=
  { b with _password := some (pSet (b._password.getD []) "BAPIPWD" password) }

/-- Embeds `UserBuilder.set_alias` (lines 115-119). -/
def UserBuilder.set_alias (b : UserBuilder) (aliasValue : String) : UserBuilder :=
  { b with _alias := some (pSet (b._alias.getD []) "USERALIAS" aliasValue) }

/-- Embeds `UserBuilder.set_type` (lines 121-125). -/
def UserBuilder.set_type (b : UserBuilder) (typ : String) : UserBuilder :=
  { b with _logondata := some (pSet (b._logondata.getD []) "USTYP" typ) }

/-- An arbitrary Python value passed to the validity-date setters: a
string or one of the non-string shapes a caller could supply. -/
inductive PyVal where
  | str (s : String)
  | pyInt (n : Int)
  | pyNone
deriving DecidableEq, Repr

/-- Predicate for `isinstance(x, str)`. -/
def PyVal.isStr : PyVal → Bool
  | .str _ => true
  | _ => false

/-- Embeds `UserBuilder.set_valid_from` (lines 127-135): a string is
stored verbatim under `GLTGV`; anything else raises `ValueError` before
the logon data is touched. -/
def UserBuilder.set_valid_from (b : UserBuilder) (start_date : PyVal) :
    UserBuilder × Except PyErr Unit :=
  match start_date with
  | .str s =>
      ({ b with _logondata := some (pSet (b._logondata.getD []) "GLTGV" s) }, Except.ok ())
  | _ => (b, Except.error PyErr.valueError)

/-- Embeds `UserBuilder.set_valid_to` (lines 137-145): a string is
stored verbatim under `GLTGB`; anything else raises `ValueError` before
the logon data is touched. -/
def UserBuilder.set_valid_to (b : UserBuilder) (end_date : PyVal) :
    UserBuilder × Except PyErr Unit :=
  match end_date with
  | .str s =>
      ({ b with _logondata := some (pSet (b._logondata.getD []) "GLTGB" s) }, Except.ok ())
  | _ => (b, Except.error PyErr.valueError)

/-- Value stored in an RFC parameter bag: a plain string, a nested
string dict, or a table of rows. -/
inductive PVal where
  | str (s : String)
  | dict (d : StrDict)
  | table (t : List StrDict)
deriving DecidableEq, Repr

/-- RFC parameter bag. -/
abbrev Params := PyDict PVal

/-- Embeds `UserBuilder.build_rfc_params` (lines 147-162).  The four
optional blocks are added when not `None`, in source order; then the
`_logondata_data` property materialises the logon dict (replacing `None`
by an empty dict on the builder itself), `GLTGV` defaults to today and
`GLTGB` to `"20991231"` if absent, and the resulting logon dict is added
to the bag.  The second component is the state of the builder after the
call: the default-filled logon dict is stored back on the builder, which
is the in-place mutation the Python code performs on `self._logondata`. -/
def UserBuilder.build_rfc_params (b : UserBuilder) (today : String) :
    Params × UserBuilder :=
  let params : Params := []
  let params := (add_to_dict_if_not_none params "USERNAME" (b._username.map PVal.str)).1
  let params := (add_to_dict_if_not_none params "ADDRESS" (b._address.map PVal.dict)).1
  let params := (add_to_dict_if_not_none params "PASSWORD" (b._password.map PVal.dict)).1
  let params := (add_to_dict_if_not_none params "ALIAS" (b._alias.map PVal.dict)).1
  let logondata := b._logondata.getD []
  let logondata := (add_to_dict_if_not_present logondata "GLTGV" today).1
  let logondata := (add_to_dict_if_not_present logondata "GLTGB" "20991231").1
  let params := (add_to_dict_if_not_none params "LOGONDATA" (some (PVal.dict logondata))).1
  (params, { b with _logondata := some logondata })

/-- Observer extracting the `LOGONDATA` block of a built bag. -/
def logondataOf (params : Params) : StrDict :=
  match pGet? params "LOGONDATA" with
  | some (PVal.dict d) => d
  | _ => []

/-- Builder state of `UserRoleAssignmentBuilder` (`src/sap/rfc/user.py`
lines 165-170): the bound username and the current role list. -/
structure UserRoleAssignmentBuilder where
  _user : String
  _roles : List String
deriving DecidableEq, Repr

/-- A freshly constructed `UserRoleAssignmentBuilder(user)`. -/
def UserRoleAssignmentBuilder.new (user : String) : UserRoleAssignmentBuilder :=
  { _user := user, _roles := [] }

/-- Embeds `UserRoleAssignmentBuilder.add_roles` (lines 172-176): the
role list is replaced by the given list. -/
def UserRoleAssignmentBuilder.add_roles (b : UserRoleAssignmentBuilder)
    (role_names : List String) : UserRoleAssignmentBuilder :=
  { b with _roles := role_names }

/-- One row of the `ACTIVITYGROUPS` table as assembled by the loop body
of `UserRoleAssignmentBuilder.build_rfc_params` (lines 186-192). -/
def roleTableRow (role_name today : String) : StrDict :=
  let table_row : StrDict := [("AGR_NAME", role_name)]
  let table_row := (add_to_dict_if_not_present table_row "FROM_DAT" today).1
  let table_row := (add_to_dict_if_not_present table_row "TO_DAT" "20991231").1
  table_row

/-- Embeds `UserRoleAssignmentBuilder.build_rfc_params` (lines 178-197):
an empty role list yields `None`; otherwise one row per role, in order,
under the bound username. -/
def UserRoleAssignmentBuilder.build_rfc_params (b : UserRoleAssignmentBuilder)
    (today : String) : Option Params :=
  if b._roles.isEmpty then none
  else some
    [("USERNAME", PVal.str b._user),
     ("ACTIVITYGROUPS", PVal.table (b._roles.map (fun r => roleTableRow r today)))]

/-- Builder state of `UserProfileAssignmentBuilder` (`src/sap/rfc/user.py`
lines 200-205): the bound username and the current profile list. -/
structure UserProfileAssignmentBuilder where
  _user : String
  _profiles : List String
deriving DecidableEq, Repr

/-- A freshly constructed `UserProfileAssignmentBuilder(user)`. -/
def UserProfileAssignmentBuilder.new (user : String) : UserProfileAssignmentBuilder :=
  { _user := user, _profiles := [] }

/-- Embeds `UserProfileAssignmentBuilder.add_profiles` (lines 207-211).
The body executes `self._profiles = profiles`, but the parameter is
named `profile_names` and no name `profiles` exists in the enclosing
scopes, so Python raises `NameError` and the builder is left unchanged;
the `profile_names` argument is never read. -/
def UserProfileAssignmentBuilder.add_profiles (b : UserProfileAssignmentBuilder)
    (_profile_names : List String) :
    UserProfileAssignmentBuilder × Except PyErr Unit :=
  (b, Except.error (PyErr.nameError "profiles"))

/-- Embeds `UserProfileAssignmentBuilder.build_rfc_params` (lines
213-228): an empty profile list yields `None`; otherwise one
`{BAPIPROF: name}` row per profile, in order, under the bound
username. -/
def UserProfileAssignmentBuilder.build_rfc_params
    (b : UserProfileAssignmentBuilder) : Option Params :=
  if b._profiles.isEmpty then none
  else some
    [("USERNAME", PVal.str b._user),
     ("PROFILES", PVal.table (b._profiles.map (fun p => [("BAPIPROF", p)])))]

/-- A username as returned by user creation. -/
abbrev UserId := String

/-- Embeds `UserManager.create_user` (`src/sap/rfc/user.py` lines
242-251).  The method first runs `user_builder.build_rfc_params()`
(with its side effect on the builder), then evaluates
`conn.call('BAPI_USER_CREATE1', **rfc_call_params)`; the name `conn` is
undefined in the method (the connection handle is stored in
`self._conn` and the module has no global `conn`), so Python raises
`NameError` before the remote handle is ever invoked.  The result is the
raised error, the builder state after the call, and the number of remote
invocations performed (zero). -/
def UserManager.create_user (user_builder : UserBuilder) (today : String) :
    Except PyErr UserId × UserBuilder × Nat :=
  let r := user_builder.build_rfc_params today
  (Except.error (PyErr.nameError "conn"), r.2, 0)

/-- Embeds `UserManager.assign_roles` (lines 258-265).  The method runs
`roles_builder.build_rfc_params()` (which may be `None`; there is no
empty-parameters check) and then evaluates
`conn.call('BAPI_USER_ACTGROUPS_ASSIGN', **rfc_call_params)`; the name
`conn` is undefined, so Python raises `NameError` and the remote handle
is never invoked.  The result is the raised error together with the
number of remote invocations performed (zero). -/
def UserManager.assign_roles (roles_builder : UserRoleAssignmentBuilder)
    (today : String) : Except PyErr Unit × Nat :=
  let _rfc_call_params := roles_builder.build_rfc_params today
  (Except.error (PyErr.nameError "conn"), 0)

/-- Embeds `UserManager.assign_profiles` (lines 272-279), symmetric to
`UserManager.assign_roles`: the undefined name `conn` raises `NameError`
before any remote invocation. -/
def UserManager.assign_profiles (profiles_builder : UserProfileAssignmentBuilder) :
    Except PyErr Unit × Nat :=
  let _rfc_call_params := profiles_builder.build_rfc_params
  (Except.error (PyErr.nameError "conn"), 0)

/-!
Reference-semantics model.  Python dictionaries are heap objects shared
by reference: the bag returned by `UserBuilder.build_rfc_params` stores
references to the very dict objects the builder keeps mutating through
its setters.  To reason about mutation of already-returned bags, the
builder and the bags are re-embedded against an explicit store of dict
objects addressed by allocation index.
-/

/-- Address of a dict object in the store. -/
abbrev Addr := Nat

/-- Heap of string-dict objects; the address is the list index. -/
structure Store where
  dicts : List StrDict
deriving DecidableEq, Repr

/-- Allocate a fresh dict object, returning its address. -/
def Store.alloc (σ : Store) (d : StrDict) : Store × Addr :=
  ({ dicts := σ.dicts ++ [d] }, σ.dicts.length)

/-- Read the dict object at an address. -/
def Store.read (σ : Store) (a : Addr) : StrDict :=
  (σ.dicts.get? a).getD []

/-- Overwrite the dict object at an address. -/
def Store.write (σ : Store) (a : Addr) (d : StrDict) : Store :=
  { dicts := σ.dicts.set a d }

/-- `UserBuilder` state under reference semantics: the four dict-valued
fields hold addresses into the store. -/
structure UserBuilderRef where
  _username : Option String
  _address : Option Addr
  _logondata : Option Addr
  _password : Option Addr
  _alias : Option Addr
deriving DecidableEq, Repr

/-- A freshly constructed `UserBuilder()` under reference semantics. -/
def UserBuilderRef.new : UserBuilderRef :=
  { _username := none, _address := none, _logondata := none,
    _password := none, _alias := none }

/-- The `_address_data` property (lines 57-62) under reference
semantics: allocate an empty dict on first access and remember its
address on the builder. -/
def UserBuilderRef.addressData (b : UserBuilderRef) (σ : Store) :
    UserBuilderRef × Store × Addr :=
  match b._address with
  | some a => (b, σ, a)
  | none =>
      let r := σ.alloc []
      ({ b with _address := some r.2 }, r.1, r.2)

/-- The `_logondata_data` property (lines 78-83) under reference
semantics. -/
def UserBuilderRef.logondataData (b : UserBuilderRef) (σ : Store) :
    UserBuilderRef × Store × Addr :=
  match b._logondata with
  | some a => (b, σ, a)
  | none =>
      let r := σ.alloc []
      ({ b with _logondata := some r.2 }, r.1, r.2)

/-- Embeds `UserBuilder.set_first_name` (lines 91-95) under reference
semantics: the assignment writes into the shared address-block dict
object. -/
def UserBuilderRef.set_first_name (b : UserBuilderRef) (σ : Store)
    (first_name : String) : UserBuilderRef × Store :=
  let r := b.addressData σ
  (r.1, r.2.1.write r.2.2 (pSet (r.2.1.read r.2.2) "FIRSTNAME" first_name))

/-- Value stored in a parameter bag under reference semantics: a plain
string or a reference to a shared dict object. -/
inductive PValR where
  | str (s : String)
  | ref (a : Addr)
deriving DecidableEq, Repr

/-- Parameter bag under reference semantics. -/
abbrev ParamsR := PyDict PValR

/-- Embeds `UserBuilder.build_rfc_params` (lines 147-162) under
reference semantics: the top-level bag is a fresh dict, but the
`ADDRESS`, `PASSWORD`, `ALIAS` and `LOGONDATA` entries hold references
to the builder's own dict objects; the default fill of `GLTGV` and
`GLTGB` writes through the logon-data reference. -/
def UserBuilderRef.build_rfc_params (b : UserBuilderRef) (σ : Store)
    (today : String) : ParamsR × UserBuilderRef × Store :=
  let params : ParamsR := []
  let params := (add_to_dict_if_not_none params "USERNAME" (b._username.map PValR.str)).1
  let params := (add_to_dict_if_not_none params "ADDRESS" (b._address.map PValR.ref)).1
  let params := (add_to_dict_if_not_none params "PASSWORD" (b._password.map PValR.ref)).1
  let params := (add_to_dict_if_not_none params "ALIAS" (b._alias.map PValR.ref)).1
  let r := b.logondataData σ
  let b2 := r.1
  let la := r.2.2
  let σ2 := r.2.1
  let σ3 := σ2.write la (add_to_dict_if_not_present (σ2.read la) "GLTGV" today).1
  let σ4 := σ3.write la (add_to_dict_if_not_present (σ3.read la) "GLTGB" "20991231").1
  let params := (add_to_dict_if_not_none params "LOGONDATA" (some (PValR.ref la))).1
  (params, b2, σ4)

/-- Observable content of one bag entry: references are dereferenced
against a store. -/
inductive SnapVal where
  | str (s : String)
  | dict (d : StrDict)
deriving DecidableEq, Repr

/-- Dereference one bag value against a store. -/
def snapshotVal (σ : Store) : PValR → SnapVal
  | .str s => SnapVal.str s
  | .ref a => SnapVal.dict (σ.read a)

/-- Observable content of a whole bag against a store. -/
def snapshot (σ : Store) (p : ParamsR) : PyDict SnapVal :=
  p.map (fun kv => (kv.1, snapshotVal σ kv.2))

/-! Basic lemmas about the embedded dictionary operations. -/

theorem pGet?_pSet_self {α : Type} (d : PyDict α) (k : String) (v : α) :
    pGet? (pSet d k v) k = some v := by
  induction d with
  | nil => simp [pSet, pGet?]
  | cons p t ih =>
      by_cases hb : p.1 = k
      · simp [pSet, pGet?, hb]
      · simp [pSet, pGet?, hb, ih]

theorem pGet?_pSet_ne {α : Type} (d : PyDict α) {k j : String} (v : α)
    (h : k ≠ j) : pGet? (pSet d j v) k = pGet? d k := by
  have hjk : ¬ j = k := fun hc => h (Eq.symm hc)
  induction d with
  | nil => simp [pSet, pGet?, hjk]
  | cons p t ih =>
      by_cases hb : p.1 = j
      · simp [pSet, pGet?, hb, hjk, ih]
      · simp [pSet, pGet?, hb, ih]

theorem pSet_eq_append {α : Type} (d : PyDict α) (k : String) (v : α)
    (h : pHasKey d k = false) : pSet d k v = d ++ [(k, v)] := by
  induction d with
  | nil => simp [pSet]
  | cons p t ih =>
      simp only [pHasKey, Bool.or_eq_false_iff] at h
      simp [pSet, h.1, ih h.2]

theorem pHasKey_append {α : Type} (d1 d2 : PyDict α) (k : String) :
    pHasKey (d1 ++ d2) k = (pHasKey d1 k || pHasKey d2 k) := by
  induction d1 with
  | nil => simp [pHasKey]
  | cons p t ih => simp [pHasKey, ih, Bool.or_assoc]

theorem pHasKey_pSet_mono {α : Type} (d : PyDict α) (j k : String) (v : α)
    (h : pHasKey d k = true) : pHasKey (pSet d j v) k = true := by
  induction d with
  | nil => simp [pHasKey] at h
  | cons p t ih =>
      simp only [pHasKey, Bool.or_eq_true, beq_iff_eq] at h
      by_cases hb : p.1 = j
      · rcases h with h | h
        · have hjk : j = k := by rw [← hb]; exact h
          simp [pSet, pHasKey, hb, hjk]
        · simp [pSet, pHasKey, hb, h]
      · rcases h with h | h
        · have hkj : ¬ k = j := by rw [← h]; exact hb
          simp [pSet, pHasKey, hb, hkj, h]
        · simp [pSet, pHasKey, hb, ih h]

theorem addIfNotPresent_fst_of_hasKey {α : Type} (d : PyDict α) (k : String)
    (v : α) (h : pHasKey d k = true) :
    (add_to_dict_if_not_present d k v).1 = d := by
  simp [add_to_dict_if_not_present, h]

theorem addIfNotPresent_fst_of_not_hasKey {α : Type} (d : PyDict α) (k : String)
    (v : α) (h : pHasKey d k = false) :
    (add_to_dict_if_not_present d k v).1 = d ++ [(k, v)] := by
  simp [add_to_dict_if_not_present, h, pSet_eq_append d k v h]

theorem pHasKey_addIfNotPresent_mono {α : Type} (d : PyDict α) (j k : String)
    (v : α) (h : pHasKey d k = true) :
    pHasKey (add_to_dict_if_not_present d j v).1 k = true := by
  unfold add_to_dict_if_not_present
  split
  · exact h
  · exact pHasKey_pSet_mono d j k v h

theorem pGet?_addIfNotPresent_ne {α : Type} (d : PyDict α) {k j : String}
    (v : α) (h : k ≠ j) :
    pGet? (add_to_dict_if_not_present d j v).1 k = pGet? d k := by
  unfold add_to_dict_if_not_present
  split
  · rfl
  · exact pGet?_pSet_ne d v h

theorem pGet?_append_of_not_hasKey {α : Type} (d1 d2 : PyDict α) (k : String)
    (h : pHasKey d1 k = false) : pGet? (d1 ++ d2) k = pGet? d2 k := by
  induction d1 with
  | nil => simp
  | cons p t ih =>
      simp only [pHasKey, Bool.or_eq_false_iff] at h
      simp [pGet?, h.1, ih h.2]

/-- The logon-data block of a built bag is the builder's logon dict after
the two default fills. -/
theorem logondataOf_build (b : UserBuilder) (today : String) :
    logondataOf (b.build_rfc_params today).1 =
      (add_to_dict_if_not_present
        (add_to_dict_if_not_present (b._logondata.getD []) "GLTGV" today).1
        "GLTGB" "20991231").1 := by
  simp [UserBuilder.build_rfc_params, logondataOf, add_to_dict_if_not_none,
    pGet?_pSet_self]

/-- Every `ACTIVITYGROUPS` row reduces to the literal three-entry row. -/
theorem roleTableRow_eq (role_name today : String) :
    roleTableRow role_name today
      = [("AGR_NAME", role_name), ("FROM_DAT", today), ("TO_DAT", "20991231")] := rfl

/-! Claim theorems. -/

/-- C1: given a row table containing a row with `TYPE = "E"`,
`raise_for_error` does not raise the structured `BAPIError` described by
the specification but fails with `TypeError`, because the raising branch
applies the `BAPIError` constructor to two positional arguments while
`BAPIError.__init__` requires three; on the empty table and on a table
with no error row it returns normally, as specified.  The last conjunct
records the message `BAPIError.__init__` would have produced for the
failing table had it been constructible. -/
theorem c1_raise_for_error_typeerror_not_bapierror :
    raise_for_error [] = RaiseOutcome.ok ∧
    raise_for_error [{ TYPE := "W", MESSAGE := "warning" }] = RaiseOutcome.ok ∧
    raise_for_error [{ TYPE := "W", MESSAGE := "warning" },
                     { TYPE := "E", MESSAGE := "Error message" }]
      = RaiseOutcome.raisedTypeError ∧
    bapiErrorMessage [{ TYPE := "W", MESSAGE := "warning" },
                      { TYPE := "E", MESSAGE := "Error message" }]
      = "W warning\nE Error message" :=
  ⟨rfl, rfl, rfl, rfl⟩

/-- C2: `UserManager.create_user` on a builder with only the username
`"FOO"` set does not return `"FOO"`: the method body evaluates the
undefined name `conn` (the connection handle is stored in `self._conn`),
so it raises `NameError` and never invokes the remote handle (zero
invocations, not one). -/
theorem c2_create_user_raises_nameerror :
    (UserManager.create_user (UserBuilder.new.set_username "FOO") "20200131").1
      = Except.error (PyErr.nameError "conn") ∧
    (UserManager.create_user (UserBuilder.new.set_username "FOO") "20200131").2.2 = 0 :=
  ⟨rfl, rfl⟩

/-- C3: `add_profiles` does not replace the builder's profile list: its
body assigns the undefined name `profiles` instead of its parameter
`profile_names`, so it raises `NameError`, the builder keeps its empty
profile list, and a subsequent build yields `None` rather than a
`PROFILES` table of three rows. -/
theorem c3_add_profiles_raises_nameerror :
    UserProfileAssignmentBuilder.add_profiles
        (UserProfileAssignmentBuilder.new "LOGON") ["1", "2", "3"]
      = (UserProfileAssignmentBuilder.new "LOGON",
         Except.error (PyErr.nameError "profiles")) ∧
    (UserProfileAssignmentBuilder.add_profiles
        (UserProfileAssignmentBuilder.new "LOGON") ["1", "2", "3"]).1.build_rfc_params
      = none :=
  ⟨rfl, rfl⟩

/-- C4: the role-assignment builder's build returns `None` on an empty
role list, and on a non-empty list of N role names returns a bag with
the bound username and an `ACTIVITYGROUPS` table of exactly N rows in
input order, each row carrying `AGR_NAME` plus `FROM_DAT` defaulted to
today and `TO_DAT` defaulted to `"20991231"`. -/
theorem c4_role_builder_build (user today : String) (names : List String) :
    (((UserRoleAssignmentBuilder.new user).add_roles names).build_rfc_params today)
      = if names.isEmpty then none
        else some
          [("USERNAME", PVal.str user),
           ("ACTIVITYGROUPS", PVal.table (names.map (fun n =>
             [("AGR_NAME", n), ("FROM_DAT", today), ("TO_DAT", "20991231")])))] := by
  simp [UserRoleAssignmentBuilder.new, UserRoleAssignmentBuilder.add_roles,
    UserRoleAssignmentBuilder.build_rfc_params, roleTableRow_eq]

/-- C5: a fresh user builder builds a bag equal to exactly
`{LOGONDATA: {GLTGV: today, GLTGB: "20991231"}}`, and the default fill
of `GLTGV` and `GLTGB` never overwrites a value already present in the
builder's logon data (in particular one stored by `set_valid_from` or
`set_valid_to`). -/
theorem c5_user_builder_defaults :
    (∀ today : String,
      (UserBuilder.new.build_rfc_params today).1
        = [("LOGONDATA", PVal.dict [("GLTGV", today), ("GLTGB", "20991231")])]) ∧
    (∀ (b : UserBuilder) (today : String),
      pHasKey (b._logondata.getD []) "GLTGV" = true →
      pGet? (logondataOf (b.build_rfc_params today).1) "GLTGV"
        = pGet? (b._logondata.getD []) "GLTGV") ∧
    (∀ (b : UserBuilder) (today : String),
      pHasKey (b._logondata.getD []) "GLTGB" = true →
      pGet? (logondataOf (b.build_rfc_params today).1) "GLTGB"
        = pGet? (b._logondata.getD []) "GLTGB") := by
  refine ⟨fun today => rfl, ?_, ?_⟩
  · intro b today h
    rw [logondataOf_build, pGet?_addIfNotPresent_ne _ _ (by decide),
      addIfNotPresent_fst_of_hasKey _ _ _ h]
  · intro b today h
    have h1 : pHasKey (add_to_dict_if_not_present (b._logondata.getD [])
        "GLTGV" today).1 "GLTGB" = true :=
      pHasKey_addIfNotPresent_mono _ _ _ _ h
    rw [logondataOf_build, addIfNotPresent_fst_of_hasKey _ _ _ h1,
      pGet?_addIfNotPresent_ne _ _ (by decide)]

/-- C5 witness: the two defaulting conjuncts applied to a builder whose
validity dates were set explicitly. -/
theorem c5_user_builder_defaults_witness :
    pGet? (logondataOf ((((UserBuilder.new.set_valid_from (PyVal.str "20190101")).1.set_valid_to
        (PyVal.str "20251231")).1).build_rfc_params "20200131").1) "GLTGV"
      = pGet? (((((UserBuilder.new.set_valid_from (PyVal.str "20190101")).1.set_valid_to
        (PyVal.str "20251231")).1)._logondata).getD []) "GLTGV" ∧
    pGet? (logondataOf ((((UserBuilder.new.set_valid_from (PyVal.str "20190101")).1.set_valid_to
        (PyVal.str "20251231")).1).build_rfc_params "20200131").1) "GLTGB"
      = pGet? (((((UserBuilder.new.set_valid_from (PyVal.str "20190101")).1.set_valid_to
        (PyVal.str "20251231")).1)._logondata).getD []) "GLTGB" :=
  ⟨c5_user_builder_defaults.2.1 _ "20200131" rfl,
   c5_user_builder_defaults.2.2 _ "20200131" rfl⟩

/-- C6: on a builder with an empty name list, `assign_roles` and
`assign_profiles` do not return normally: although the builders correctly
report "nothing to do" (`None`), the manager has no skip check and its
body evaluates the undefined name `conn`, so both calls raise `NameError`
(the remote handle is indeed never invoked, but only because the crash
happens first). -/
theorem c6_assign_empty_raises_nameerror :
    (UserRoleAssignmentBuilder.new "LOGON").build_rfc_params "20200131" = none ∧
    (UserProfileAssignmentBuilder.new "LOGON").build_rfc_params = none ∧
    UserManager.assign_roles (UserRoleAssignmentBuilder.new "LOGON") "20200131"
      = (Except.error (PyErr.nameError "conn"), 0) ∧
    UserManager.assign_profiles (UserProfileAssignmentBuilder.new "LOGON")
      = (Except.error (PyErr.nameError "conn"), 0) :=
  ⟨rfl, rfl, rfl, rfl⟩

/-- C7: for every builder state, `set_valid_from` and `set_valid_to`
reject a non-string input with `ValueError` leaving the builder (and in
particular its logon data) unchanged, and store a string input verbatim
under `GLTGV` respectively `GLTGB`. -/
theorem c7_valid_date_setters (b : UserBuilder) (v : PyVal) (s : String) :
    (v.isStr = false → b.set_valid_from v = (b, Except.error PyErr.valueError)) ∧
    (v.isStr = false → b.set_valid_to v = (b, Except.error PyErr.valueError)) ∧
    ((b.set_valid_from (PyVal.str s)).2 = Except.ok () ∧
      pGet? (((b.set_valid_from (PyVal.str s)).1)._logondata.getD []) "GLTGV" = some s) ∧
    ((b.set_valid_to (PyVal.str s)).2 = Except.ok () ∧
      pGet? (((b.set_valid_to (PyVal.str s)).1)._logondata.getD []) "GLTGB" = some s) := by
  refine ⟨?_, ?_, ⟨rfl, ?_⟩, ⟨rfl, ?_⟩⟩
  · intro h
    cases v <;> simp_all [PyVal.isStr, UserBuilder.set_valid_from]
  · intro h
    cases v <;> simp_all [PyVal.isStr, UserBuilder.set_valid_to]
  · simp [UserBuilder.set_valid_from, pGet?_pSet_self]
  · simp [UserBuilder.set_valid_to, pGet?_pSet_self]

/-- C7 witness: a fresh builder rejects the integer `20200101` with
`ValueError` and stores the string `"20200101"` verbatim. -/
theorem c7_valid_date_setters_witness :
    UserBuilder.new.set_valid_from (PyVal.pyInt 20200101)
      = (UserBuilder.new, Except.error PyErr.valueError) ∧
    pGet? (((UserBuilder.new.set_valid_from (PyVal.str "20200101")).1)._logondata.getD [])
      "GLTGV" = some "20200101" :=
  ⟨(c7_valid_date_setters UserBuilder.new (PyVal.pyInt 20200101) "20200101").1 rfl,
   (c7_valid_date_setters UserBuilder.new (PyVal.pyInt 20200101) "20200101").2.2.1.2⟩

/-- C8: `set_email_address` called with a string on a freshly created
builder does not succeed: it subscripts the `None` address block and
raises `TypeError`, leaving the builder unchanged; the same call after
`set_first_name` (which materialises the address block) succeeds, so the
setters are not order-independent as claimed. -/
theorem c8_set_email_address_typeerror :
    UserBuilder.new.set_email_address "email@example.org"
      = (UserBuilder.new, Except.error PyErr.typeError) ∧
    (UserBuilder.new.set_first_name "First").set_email_address "email@example.org"
      = ({ UserBuilder.new with
            _address := some [("FIRSTNAME", "First"), ("E_MAIL", "email@example.org")] },
         Except.ok ()) :=
  ⟨rfl, rfl⟩

/-- C9 counterexample: builds a bag from a builder whose first name is
`"First"`, then calls `set_first_name "Second"` on the builder; the
observable content of the previously returned bag changes (its `ADDRESS`
block is the very dict object the setter wrote into), so a returned bag
is not immune to later setter calls. -/
theorem c9_counterexample :
    ¬ (let s1 := UserBuilderRef.new.set_first_name { dicts := [] } "First"
       let r := s1.1.build_rfc_params s1.2 "20200131"
       let s2 := r.2.1.set_first_name r.2.2 "Second"
       snapshot s2.2 r.1 = snapshot r.2.2 r.1) := by
  decide

/-- C9 amended: every build call returns a fresh top-level bag, and a
repeated build leaves the observable content of a previously returned
bag unchanged; but the nested blocks are stored by reference to the
builder's own dict objects, so a setter that writes into such a block
after build (here `set_first_name`) changes the previously returned
bag's nested content to the newly written value. -/
theorem c9_amended_shared_blocks (f1 f2 today today2 : String) :
    (let s1 := UserBuilderRef.new.set_first_name { dicts := [] } f1
     let r := s1.1.build_rfc_params s1.2 today
     let s2 := r.2.1.set_first_name r.2.2 f2
     let r2 := r.2.1.build_rfc_params r.2.2 today2
     r.1 = [("ADDRESS", PValR.ref 0), ("LOGONDATA", PValR.ref 1)] ∧
     snapshot r.2.2 r.1
       = [("ADDRESS", SnapVal.dict [("FIRSTNAME", f1)]),
          ("LOGONDATA", SnapVal.dict [("GLTGV", today), ("GLTGB", "20991231")])] ∧
     snapshot r2.2.2 r.1 = snapshot r.2.2 r.1 ∧
     snapshot s2.2 r.1
       = [("ADDRESS", SnapVal.dict [("FIRSTNAME", f2)]),
          ("LOGONDATA", SnapVal.dict [("GLTGV", today), ("GLTGB", "20991231")])]) := by
  refine ⟨rfl, rfl, rfl, rfl⟩

/-- C10: on a builder whose logon data carries neither `GLTGV` nor
`GLTGB`, the first build permanently stores `GLTGV = today` and
`GLTGB = "20991231"` in the builder's own logon data; a second build
with a different clock value leaves the builder unchanged and returns
the dates stored by the first build, not freshly computed defaults. -/
theorem c10_build_mutates_builder (b : UserBuilder) (today today2 : String)
    (hv : pHasKey (b._logondata.getD []) "GLTGV" = false)
    (hb : pHasKey (b._logondata.getD []) "GLTGB" = false) :
    ((b.build_rfc_params today).2)._logondata
      = some ((b._logondata.getD []) ++ [("GLTGV", today), ("GLTGB", "20991231")]) ∧
    ((b.build_rfc_params today).2.build_rfc_params today2).2
      = (b.build_rfc_params today).2 ∧
    pGet? (logondataOf ((b.build_rfc_params today).2.build_rfc_params today2).1) "GLTGV"
      = some today ∧
    pGet? (logondataOf ((b.build_rfc_params today).2.build_rfc_params today2).1) "GLTGB"
      = some "20991231" := by
  have hL : (add_to_dict_if_not_present
      (add_to_dict_if_not_present (b._logondata.getD []) "GLTGV" today).1
      "GLTGB" "20991231").1
      = (b._logondata.getD []) ++ [("GLTGV", today), ("GLTGB", "20991231")] := by
    rw [addIfNotPresent_fst_of_not_hasKey _ _ _ hv,
      addIfNotPresent_fst_of_not_hasKey]
    · simp
    · rw [pHasKey_append, hb]
      rfl
  have hmem : ∀ k : String, pHasKey [("GLTGV", today), ("GLTGB", "20991231")] k = true →
      pHasKey ((b._logondata.getD []) ++ [("GLTGV", today), ("GLTGB", "20991231")]) k = true := by
    intro k hk
    rw [pHasKey_append, hk, Bool.or_true]
  have hbuild : ∀ (c : UserBuilder) (t : String), (c.build_rfc_params t).2
      = { c with _logondata := some ((add_to_dict_if_not_present
          (add_to_dict_if_not_present (c._logondata.getD []) "GLTGV" t).1
          "GLTGB" "20991231").1) } := fun c t => rfl
  have h2 : (b.build_rfc_params today).2
      = { b with _logondata := some ((b._logondata.getD []) ++ [("GLTGV", today), ("GLTGB", "20991231")]) } := by
    rw [hbuild, hL]
  have hstored : ((b.build_rfc_params today).2)._logondata
      = some ((b._logondata.getD []) ++ [("GLTGV", today), ("GLTGB", "20991231")]) := by
    rw [h2]
  have hfix : (add_to_dict_if_not_present
      (add_to_dict_if_not_present
        ((b._logondata.getD []) ++ [("GLTGV", today), ("GLTGB", "20991231")])
        "GLTGV" today2).1
      "GLTGB" "20991231").1
      = (b._logondata.getD []) ++ [("GLTGV", today), ("GLTGB", "20991231")] := by
    rw [addIfNotPresent_fst_of_hasKey _ _ _ (hmem "GLTGV" rfl),
      addIfNotPresent_fst_of_hasKey _ _ _ (hmem "GLTGB" rfl)]
  refine ⟨hstored, ?_, ?_, ?_⟩
  · rw [hbuild ((b.build_rfc_params today).2) today2, h2]
    simp only [Option.getD_some]
    rw [hfix]
  · rw [logondataOf_build, hstored]
    simp only [Option.getD_some]
    rw [hfix, pGet?_append_of_not_hasKey _ _ _ hv]
    simp [pGet?]
  · rw [logondataOf_build, hstored]
    simp only [Option.getD_some]
    rw [hfix, pGet?_append_of_not_hasKey _ _ _ hb]
    simp [pGet?]

/-- C10 witness: a fresh builder built with clock `"20200131"` stores
the defaults, and a rebuild with clock `"20210630"` leaves the builder
unchanged and still reports the first clock value. -/
theorem c10_build_mutates_builder_witness :
    ((UserBuilder.new.build_rfc_params "20200131").2)._logondata
      = some [("GLTGV", "20200131"), ("GLTGB", "20991231")] ∧
    ((UserBuilder.new.build_rfc_params "20200131").2.build_rfc_params "20210630").2
      = (UserBuilder.new.build_rfc_params "20200131").2 ∧
    pGet? (logondataOf ((UserBuilder.new.build_rfc_params "20200131").2.build_rfc_params
      "20210630").1) "GLTGV" = some "20200131" ∧
    pGet? (logondataOf ((UserBuilder.new.build_rfc_params "20200131").2.build_rfc_params
      "20210630").1) "GLTGB" = some "20991231" :=
  c10_build_mutates_builder UserBuilder.new "20200131" "20210630" rfl rfl
